import Mathlib

/-!
Shallow embedding of `src/waveio.py` (WAVE file I/O: RIFF chunk scanner,
WAVE format reader, sample codecs, sequential WAVE writer).

Bytes are modelled as `Nat` (always < 256 by construction), files as
`List Nat`.  Python exceptions are modelled by the `PyErr` type; every
fallible operation returns `Except PyErr _` or pairs its result with an
`Option PyErr`.  Machine integers are `Int`/`Nat` with explicit `% 2^w`
where the source truncates (numpy `astype(np.uint8)`, `struct.pack`).
-/

/-- Python exceptions raised by the code paths modelled here.
`structError` stands for `struct.error` on a short buffer,
`attributeError` for the `AttributeError` raised by `None.seek`,
`unboundLocalError` for reading a local variable that was never assigned,
and `outOfFuel` is a modelling artifact of the bounded scan loop (it is
never reached for the inputs considered: the loop advances by at least 8
bytes per iteration). -/
inductive PyErr where
  | valueError : String → PyErr
  | indexError : String → PyErr
  | attributeError : PyErr
  | zeroDivisionError : PyErr
  | structError : PyErr
  | unboundLocalError : PyErr
  | outOfFuel : PyErr
deriving DecidableEq

/-- ASCII bytes of a string literal (used for the 4-byte RIFF tags and the
fixed header text the writer emits). -/
def ascii (s : String) : List Nat := s.toList.map Char.toNat

/-- Little-endian 16-bit encoding, as produced by `struct.pack` for the
in-range values the source feeds it. -/
def le16 (n : Nat) : List Nat := [n % 256, n / 256 % 256]

/-- Little-endian 32-bit encoding (`struct.pack '<L'`). -/
def le32 (n : Nat) : List Nat :=
  [n % 256, n / 256 % 256, n / 65536 % 256, n / 16777216 % 256]

/-- Read a little-endian 16-bit value from a byte list (`struct.unpack '<H'`). -/
def rd16 (s : List Nat) (pos : Nat) : Nat :=
  s.getD pos 0 + 256 * s.getD (pos + 1) 0

/-- Read a little-endian 32-bit value from a byte list (`struct.unpack '<L'`). -/
def rd32 (s : List Nat) (pos : Nat) : Nat :=
  s.getD pos 0 + 256 * s.getD (pos + 1) 0 + 65536 * s.getD (pos + 2) 0 +
    16777216 * s.getD (pos + 3) 0

/-- `f.seek(pos); f.read(len)` on a byte source: returns the bytes present,
possibly fewer than `len` near EOF (Python file semantics). -/
def bytesAt (file : List Nat) (pos len : Nat) : List Nat :=
  (file.drop pos).take len

/-- `f.seek(pos); f.write(d)` on a byte sink: overwrites in place, extends
the file if needed (a seek past EOF zero-fills the gap, as POSIX files do;
the writer never actually seeks past EOF). -/
def writeAt (file : List Nat) (pos : Nat) (d : List Nat) : List Nat :=
  file.take pos ++ List.replicate (pos - file.length) 0 ++ d ++
    file.drop (pos + d.length)

/-- Two's complement reinterpretation of an `int16` as its unsigned byte
pattern (what `numpy.int16.tostring` serialises). -/
def toU16 (v : Int) : Nat := (v % 65536).toNat

/-- Signed interpretation of a 16-bit little-endian value
(`struct.unpack '<h'` / `np.fromstring(s, np.int16)`). -/
def toS16 (u : Nat) : Int := if u < 32768 then (u : Int) else (u : Int) - 65536

/-- `np.clip(val, -32768, 32767)` on one element. -/
def clampI16 (v : Int) : Int := min 32767 (max (-32768) v)

/-- The writer's 8-bit encoder for one (already int32-ranged) sample:
`byte = ((clip(v) + 128) >> 8) + 128` truncated to 8 bits
(`.astype(np.uint8)`); `>>` is an arithmetic (floor) shift, which is
`Int` division by 256 in Lean.  The numpy `int16` wraparound at
`v + 128` for `v ≥ 32640` yields the same byte as this unbounded-integer
formula (both reduce mod 256). -/
def enc8 (v : Int) : Nat := (((clampI16 v + 128) / 256 + 128) % 256).toNat

/-- The reader's 8-bit decoder for one byte: `(b - 128) * 256`
(`dec_8_mono_arr` / `dec_8_stereo_arr`, identical per-sample rule). -/
def dec8 (b : Nat) : Int := ((b : Int) - 128) * 256

/-- The reader's 16-bit bulk decoder (`dec_16_mono_arr` /
`dec_16_stereo_arr` on a little-endian host: `np.fromstring(s, np.int16)`;
the stereo variant only reshapes, the sample sequence is identical). -/
def dec16list : List Nat → List Int
  | b0 :: b1 :: rest => toS16 (b0 + 256 * b1) :: dec16list rest
  | _ => []

/-- Decoder dispatch as selected by `bits_per_samp` (the reader binds
`dec_8_*` for 8, `dec_16_*` for 16; no other depth reaches a decoder). -/
def arrDecode (bits : Nat) (s : List Nat) : List Int :=
  if bits = 8 then s.map dec8 else dec16list s

/-! ### WaveFileWriter -/

/-- The value passed to a writer assignment, after `np.asarray`: either a
1-d sequence of scalars (shape `(n,)`) or an n×2 sequence of pairs
(shape `(n,2)`). -/
inductive WVal where
  | flat : List Int → WVal
  | pairs : List (Int × Int) → WVal
deriving DecidableEq

/-- `len(val)` (first dimension). -/
def lenOf : WVal → Nat
  | .flat l => l.length
  | .pairs p => p.length

/-- `val.shape` of the converted array. -/
def shapeOf : WVal → List Nat
  | .flat l => [l.length]
  | .pairs p => [p.length, 2]

/-- Elementwise `np.clip(val, -32768, 32767)` (shape preserved). -/
def clampVal : WVal → WVal
  | .flat l => .flat (l.map clampI16)
  | .pairs p => .pairs (p.map fun q => (clampI16 q.1, clampI16 q.2))

/-- Row-major (channel-interleaved) sample sequence of the array. -/
def flattenVal : WVal → List Int
  | .flat l => l
  | .pairs p => (p.map fun q => [q.1, q.2]).flatten

/-- The writer's sample-to-byte conversion for a flat interleaved block:
8-bit takes the re-biased top byte of each sample, every other configured
depth serialises little-endian `int16` (the source's `else` branch). -/
def encodeSamples (bits : Nat) (vs : List Int) : List Nat :=
  if bits = 8 then vs.map enc8
  else (vs.map fun v => le16 (toU16 (clampI16 v))).flatten

/-- `WaveFileWriter` state: `fileOpen` models `self.f is not None`,
`fileData` the bytes of the sink written so far. -/
structure WriterState where
  nchans : Nat
  bits_per_samp : Nat
  bytes_per_frame : Nat
  sample_rate : Nat
  datapos : Nat
  curindex : Int
  fileOpen : Bool
  fileData : List Nat
deriving DecidableEq

/-- The provisional header `WaveFileWriter.__init__` emits:
`'RIFFxxxxWAVEfmt '`, the packed fmt payload, then
`'fact\x04\0\0\0xxxxdataxxxx'` (three `xxxx` placeholders patched at
close). -/
def writerHeader (nchans bits rate bpf : Nat) : List Nat :=
  ascii ("RIFFxxxxWAVEfmt ") ++
    (le32 16 ++ le16 1 ++ le16 nchans ++ le32 rate ++ le32 (rate * bpf) ++
      le16 bpf ++ le16 bits) ++
    (ascii ("fact") ++ le32 4 ++ ascii ("xxxx") ++ ascii ("data") ++
      ascii ("xxxx"))

/-- `WaveFileWriter.__init__` after parameter validation: computes
`bytes_per_frame`, zeroes the cursor and writes the provisional header;
`datapos` is the running offset `p` after those writes (16 + 20 + 20). -/
def writerMk (nchans bits rate : Nat) : WriterState :=
  let bpf := nchans * (if bits > 8 then 2 else 1)
  { nchans := nchans
    bits_per_samp := bits
    bytes_per_frame := bpf
    sample_rate := rate
    datapos := 56
    curindex := 0
    fileOpen := true
    fileData := writerHeader nchans bits rate bpf }

/-- The constructor's parameter validation
(`nchans not in (1,2) or not (8 <= bits_per_samp <= 16)`). -/
def writerInit (nchans bits rate : Nat) : Except PyErr WriterState :=
  if (nchans = 1 ∨ nchans = 2) ∧ 8 ≤ bits ∧ bits ≤ 16 then
    .ok (writerMk nchans bits rate)
  else .error (.valueError ("bad nchans or bits_per_samp"))

/-- The effective `stop` after the `stop is None` resolution. -/
def stopVal (start : Int) (stop? : Option Int) (val : WVal) : Int :=
  match stop? with
  | none => start + lenOf val
  | some st => st

/-- Tail of `WaveFileWriter.__setitem__` from the sequencing check on:
note the cursor is assigned to `stop` *before* the array-shape test and
before any I/O, so a shape failure (or a write on a closed writer, where
`self.f.seek` raises `AttributeError`) leaves the cursor already
advanced. -/
def setitemTail (w : WriterState) (start stop : Int) (val : WVal) :
    WriterState × Option PyErr :=
  if w.curindex ≠ start then
    (w, some (.valueError ("WaveFileWriter assignments must be in seq")))
  else
    let w1 : WriterState := { w with curindex := stop }
    let cval := clampVal val
    let expect :=
      if w.nchans = 2 then [(stop - start).toNat, 2] else [(stop - start).toNat]
    if shapeOf cval ≠ expect then
      (w1, some (.valueError ("assigning array shape to slice of shape")))
    else
      let bytes := encodeSamples w.bits_per_samp (flattenVal cval)
      if w.fileOpen then
        ({ w1 with
            fileData :=
              writeAt w1.fileData (w.datapos + start.toNat * w.bytes_per_frame)
                bytes },
          none)
      else (w1, some .attributeError)

/-- `WaveFileWriter.__setitem__` after the index has been normalised to
`(start, stop?)`: the negative/reversed-slice test, the `stop is None`
resolution, the size check, then `setitemTail`. -/
def setitemCore (w : WriterState) (start : Int) (stop? : Option Int)
    (val : WVal) : WriterState × Option PyErr :=
  if start < 0 then (w, some (.indexError ("invalid slice parameters")))
  else
    match stop? with
    | some st =>
      if st < start then (w, some (.indexError ("invalid slice parameters")))
      else if (lenOf val : Int) + start ≠ st then
        (w, some (.valueError ("size mismatch in slice assignment")))
      else setitemTail w start st val
    | none => setitemTail w start (start + lenOf val) val

/-- `w[start:stop:step] = val` (slice branch of `__setitem__`): step must
be 1 when given, a `None` start defaults to 0. -/
def setitemSlice (w : WriterState) (start? stop? step? : Option Int)
    (val : WVal) : WriterState × Option PyErr :=
  match step? with
  | some s =>
    if s ≠ 1 then (w, some (.indexError ("slice step must be 1")))
    else setitemCore w (start?.getD 0) stop? val
  | none => setitemCore w (start?.getD 0) stop? val

/-- `w[i] = v` (integer branch of `__setitem__`): `val = [val]`,
`stop = i + 1`. -/
def setitemInt (w : WriterState) (i : Int) (v : Int) :
    WriterState × Option PyErr :=
  setitemCore w i (some (i + 1)) (.flat [v])

/-- `WaveFileWriter.write_samples(seq)` =
`self[self.curindex:] = seq`. -/
def write_samples (w : WriterState) (val : WVal) :
    WriterState × Option PyErr :=
  setitemSlice w (some w.curindex) none none val

/-- `WaveFileWriter.close()`: a no-op when already closed; otherwise
patches the RIFF total length at offset 4 and the
fact-count/`'data'`/data-length triple at `datapos - 12`, then drops the
file handle. -/
def wclose (w : WriterState) : WriterState :=
  if w.fileOpen then
    let n := w.curindex.toNat
    let dlen := w.bytes_per_frame * n
    let d2 := le32 n ++ ascii ("data") ++ le32 dlen
    let d1 := le32 (dlen + w.datapos - 8)
    let f1 := writeAt w.fileData 4 d1
    let f2 := writeAt f1 (w.datapos - 12) d2
    { w with fileData := f2, fileOpen := false }
  else w

/-! ### RiffReader / WaveFileReader -/

/-- An entry of `RiffReader.chunklist`: `('chkid', posn, length)` where
`posn` is the offset of the chunk's data (8 past its header). -/
structure ChunkEntry where
  chktype : List Nat
  pos : Nat
  chklen : Nat
deriving DecidableEq

/-- The chunk-scanning `while nextpos < length` loop of
`RiffReader.__init__`.  `fuel` bounds the recursion; the caller passes
`length + 1`, which is never exhausted because each iteration advances
`nextpos` by at least 8 while requiring `nextpos < length`. -/
def scanLoop (file : List Nat) (length : Nat) :
    Nat → Nat → List ChunkEntry → Nat → Except PyErr (List ChunkEntry)
  | _, _, _, 0 => .error .outOfFuel
  | pos, nextpos, acc, fuel + 1 =>
    if nextpos < length then
      if nextpos < pos then .error (.valueError ("bad chunk length"))
      else if file.length < nextpos + 8 then .error .structError
      else
        let chktype := bytesAt file nextpos 4
        let chklen := rd32 file (nextpos + 4)
        let p2 := nextpos + 8
        scanLoop file length p2 (p2 + (chklen + 1) / 2 * 2)
          (acc ++ [⟨chktype, p2, chklen⟩]) fuel
    else .ok acc

/-- `RiffReader.__init__` as specialised by `WaveFileReader`
(`expected_RIFFtype = 'WAVE'`): unpack the 12-byte header, check the form
type then the `'RIFF'` magic (in that order, as the source does), then
scan the chunk list.  Returns the declared length and the chunk list. -/
def riffScanWAVE (file : List Nat) : Except PyErr (Nat × List ChunkEntry) :=
  if file.length < 12 then .error .structError
  else
    let s1 := bytesAt file 0 4
    let len := rd32 file 4
    let s2 := bytesAt file 8 4
    if s2 ≠ ascii ("WAVE") then .error (.valueError ("expecting RIFF type"))
    else if s1 ≠ ascii ("RIFF") then
      .error (.valueError ("RIFF header not found"))
    else
      match scanLoop file len 12 12 [] (len + 1) with
      | .error e => .error e
      | .ok chunks => .ok (len, chunks)

/-- `RiffReader.find_chunk_data`: first entry of matching type, else
`ValueError` (the source formats the missing type into the message). -/
def find_chunk_data (chunks : List ChunkEntry) (t : List Nat) :
    Except PyErr ChunkEntry :=
  match chunks with
  | [] => .error (.valueError ("chunk type not found"))
  | c :: rest => if c.chktype = t then .ok c else find_chunk_data rest t

/-- `get_chunk_data('fmt ')` plus the 16-byte extension padding
(`if len(dat)==16: dat += '\0\0'`). -/
def fmtData (file : List Nat) (c : ChunkEntry) : List Nat :=
  let d := bytesAt file c.pos c.chklen
  if d.length = 16 then d ++ [0, 0] else d

/-- `WaveFileReader` state after a successful `__init__`. -/
structure ReaderState where
  file : List Nat
  nchans : Nat
  bits_per_samp : Nat
  bytes_per_frame : Nat
  sample_rate : Nat
  sample_count : Nat
  datapos : Nat
  databytes : Nat
  shape : List Nat
deriving DecidableEq

/-- `WaveFileReader.__init__`: RIFF scan, fmt parse and validation, data
chunk lookup, derived quantities, decoder dispatch.  The source computes
`duration = sample_count / float(samp_rate)` at this point, which raises
`ZeroDivisionError` when the declared rate is 0 (the preceding format
validation never inspects the rate): that failure branch is modelled
explicitly; the float value itself is not tracked (no claim uses it).  A
bit depth in 9..15 passes validation but leaves the decoder variables
unassigned, raising `UnboundLocalError` at the assignment. -/
def wavInit (file : List Nat) : Except PyErr ReaderState :=
  match riffScanWAVE file with
  | .error e => .error e
  | .ok (_flen, chunks) =>
    match find_chunk_data chunks (ascii ("fmt ")) with
    | .error e => .error e
    | .ok fmtc =>
      let dat := fmtData file fmtc
      if dat.length < 18 then .error .structError
      else
        let comp := rd16 dat 0
        let nchans := rd16 dat 2
        let rate := rd32 dat 4
        let bits := rd16 dat 14
        if ¬(comp = 1 ∧ (nchans = 1 ∨ nchans = 2) ∧ 8 ≤ bits ∧ bits ≤ 16) then
          .error (.valueError ("unsupported RIFF format"))
        else
          let bpf := nchans * (if bits > 8 then 2 else 1)
          match find_chunk_data chunks (ascii ("data")) with
          | .error e => .error e
          | .ok datac =>
            let scount := datac.chklen / bpf
            if rate = 0 then .error .zeroDivisionError
            else if ¬(bits = 8 ∨ bits = 16) then .error .unboundLocalError
            else
              .ok { file := file
                    nchans := nchans
                    bits_per_samp := bits
                    bytes_per_frame := bpf
                    sample_rate := rate
                    sample_count := scount
                    datapos := datac.pos
                    databytes := datac.chklen
                    shape := if nchans = 2 then [scount, 2] else [scount] }

/-- The reader's negative-index adjustment (`if i < 0: i += n`). -/
def adjIdx (i : Int) (n : Nat) : Int := if i < 0 then i + n else i

/-- Integer branch of `WaveFileReader.__getitem__`: adjust a negative
index, bounds-check against `[0, sample_count)`, read one frame and
scalar-decode it (the scalar decoders agree with the bulk decoders on a
single frame's bytes). -/
def wgetScalar (r : ReaderState) (i : Int) : Except PyErr (List Int) :=
  if 0 ≤ adjIdx i r.sample_count ∧
      adjIdx i r.sample_count < (r.sample_count : Int) then
    .ok (arrDecode r.bits_per_samp
      (bytesAt r.file
        (r.datapos + r.bytes_per_frame * (adjIdx i r.sample_count).toNat)
        r.bytes_per_frame))
  else .error (.indexError (""))

/-- Python's `slice.indices(n)` clamping for a positive unit step. -/
def sliceIndices (start? stop? : Option Int) (n : Nat) : Nat × Nat :=
  let s := match start? with
    | none => 0
    | some s => if s < 0 then (s + n).toNat else min s.toNat n
  let t := match stop? with
    | none => n
    | some t => if t < 0 then (t + n).toNat else min t.toNat n
  (s, t)

/-- The read-and-decode tail of the reader's slice access, after
clamping: read `recs * bytes_per_frame` bytes at frame `st` — skipping
the read entirely for an empty range (`d = ''`) — and bulk-decode.  The
first component reports the `(offset, length)` of the read issued on the
underlying stream, `none` when no I/O was performed. -/
def rangeRead (r : ReaderState) (st recs : Nat) :
    Option (Nat × Nat) × List Int :=
  if recs = 0 then (none, arrDecode r.bits_per_samp [])
  else
    (some (r.datapos + r.bytes_per_frame * st, recs * r.bytes_per_frame),
      arrDecode r.bits_per_samp
        (bytesAt r.file (r.datapos + r.bytes_per_frame * st)
          (recs * r.bytes_per_frame)))

/-- Slice branch of `WaveFileReader.__getitem__`: clamp via
`slice.indices`, reject a non-unit stride (a zero step is rejected by
`slice.indices` itself), then read and decode
`max(0, stop-start)` frames via `rangeRead`. -/
def wgetRange (r : ReaderState) (start? stop? step? : Option Int) :
    Except PyErr (Option (Nat × Nat) × List Int) :=
  match step? with
  | some s =>
    if s = 0 then .error (.valueError ("slice step cannot be zero"))
    else if s ≠ 1 then .error (.valueError ("stride must be 1"))
    else
      .ok (rangeRead r (sliceIndices start? stop? r.sample_count).1
        ((sliceIndices start? stop? r.sample_count).2 -
          (sliceIndices start? stop? r.sample_count).1))
  | none =>
    .ok (rangeRead r (sliceIndices start? stop? r.sample_count).1
      ((sliceIndices start? stop? r.sample_count).2 -
        (sliceIndices start? stop? r.sample_count).1))

/-! ### Concrete instances used by witnesses and counterexamples -/

/-- The file produced by a 16-bit mono writer at 8000 Hz after
`write_samples((100, 200, 300, 400))` and `close()`. -/
def demoFile : List Nat :=
  (wclose (write_samples (writerMk 1 16 8000) (.flat [100, 200, 300, 400])).1).fileData

/-- The reader state `WaveFileReader` yields on `demoFile`
(checked below against `wavInit`). -/
def sampleReader : ReaderState :=
  { file := demoFile
    nchans := 1
    bits_per_samp := 16
    bytes_per_frame := 2
    sample_rate := 8000
    sample_count := 4
    datapos := 56
    databytes := 8
    shape := [4] }

/-- The file produced by opening a default 16-bit mono writer and closing
it immediately (zero frames written): declared RIFF length 48, `data`
chunk header at absolute offset 48. -/
def emptyWriterFile : List Nat := (wclose (writerMk 1 16 44100)).fileData

/-- A well-formed 16-bit mono PCM WAVE byte stream whose fmt chunk
declares `sample_rate = 0`, with a 1-frame data chunk. -/
def zeroRateFile : List Nat :=
  ascii ("RIFF") ++ le32 38 ++ ascii ("WAVE") ++
    ascii ("fmt ") ++ le32 16 ++
      (le16 1 ++ le16 1 ++ le32 0 ++ le32 0 ++ le16 2 ++ le16 16) ++
    ascii ("data") ++ le32 2 ++ [0, 0]

deriving instance DecidableEq for Except

set_option maxRecDepth 100000 in
/-- `wavInit` on `demoFile` succeeds with `sampleReader` (end-to-end check
of the writer/reader embedding on a concrete file). -/
theorem wavInit_demoFile : wavInit demoFile = .ok sampleReader := by decide

/-! ### Codec lemmas -/

theorem clampI16_mem (v : Int) : -32768 ≤ clampI16 v ∧ clampI16 v ≤ 32767 := by
  unfold clampI16; omega

theorem clampI16_eq_self (v : Int) (h1 : -32768 ≤ v) (h2 : v ≤ 32767) :
    clampI16 v = v := by
  unfold clampI16; omega

theorem toS16_toU16 (v : Int) (h1 : -32768 ≤ v) (h2 : v ≤ 32767) :
    toS16 (toU16 v) = v := by
  unfold toS16 toU16
  split <;> omega

theorem dec16list_le16_cons (u : Nat) (hu : u < 65536) (rest : List Nat) :
    dec16list (le16 u ++ rest) = toS16 u :: dec16list rest := by
  have h : u % 256 + 256 * (u / 256 % 256) = u := by omega
  simp [le16, dec16list, h]

theorem toU16_lt (v : Int) : toU16 v < 65536 := by
  unfold toU16; omega

/-- Decoding the writer's 16-bit byte stream recovers the clamped
samples, with no loss. -/
theorem dec16list_encodeSamples (vs : List Int) :
    dec16list (encodeSamples 16 vs) = vs.map clampI16 := by
  induction vs with
  | nil => simp [encodeSamples, dec16list]
  | cons v rest ih =>
    have hrange := clampI16_mem v
    simp only [encodeSamples, List.map_cons, List.flatten_cons,
      if_neg (by decide : ¬(16 = 8))] at ih ⊢
    rw [dec16list_le16_cons _ (toU16_lt _),
      toS16_toU16 _ hrange.1 hrange.2, ih]

theorem enc8_lt (v : Int) : enc8 v < 256 := by
  unfold enc8; omega

theorem enc8_dec8 (b : Nat) (hb : b < 256) : enc8 (dec8 b) = b := by
  unfold enc8 dec8 clampI16; omega

/-! ### Writer file-layout lemmas -/

theorem writerHeader_length (nchans bits rate bpf : Nat) :
    (writerHeader nchans bits rate bpf).length = 56 := by
  simp [writerHeader, ascii, le16, le32]

theorem writeAt_of_length_eq (f : List Nat) (pos : Nat) (d : List Nat)
    (h : pos = f.length) : writeAt f pos d = f ++ d := by
  subst h
  simp [writeAt, List.drop_eq_nil_of_le]

theorem shapeOf_clampVal (val : WVal) : shapeOf (clampVal val) = shapeOf val := by
  cases val <;> simp [shapeOf, clampVal]

theorem flattenVal_clampVal (val : WVal) :
    flattenVal (clampVal val) = (flattenVal val).map clampI16 := by
  cases val with
  | flat l => rfl
  | pairs p =>
    simp only [flattenVal, clampVal, List.map_flatten, List.map_map]
    rfl

theorem map_clampI16_eq_self (l : List Int)
    (h : ∀ v ∈ l, -32768 ≤ v ∧ v ≤ 32767) : l.map clampI16 = l := by
  induction l with
  | nil => rfl
  | cons v rest ih =>
    have hv := h v (by simp)
    simp only [List.map_cons, clampI16_eq_self v hv.1 hv.2,
      ih fun x hx => h x (by simp [hx])]

/-- A first in-sequence write on a freshly opened writer with a
correctly shaped value: succeeds and appends the encoded bytes right
after the 56-byte provisional header. -/
theorem setitem_fresh_spec (nch bits rate : Nat) (val : WVal)
    (hshape : shapeOf val = if nch = 2 then [lenOf val, 2] else [lenOf val]) :
    (setitemSlice (writerMk nch bits rate) (some 0) none none val).2 = none ∧
    (setitemSlice (writerMk nch bits rate) (some 0) none none val).1.fileData =
      writerHeader nch bits rate (nch * (if bits > 8 then 2 else 1)) ++
        encodeSamples bits ((flattenVal val).map clampI16) := by
  have hto : ((0 : Int) + (lenOf val : Int) - 0).toNat = lenOf val := by omega
  have hw : ∀ bpf : Nat,
      writeAt (writerHeader nch bits rate bpf) 56
        (encodeSamples bits ((flattenVal val).map clampI16)) =
      writerHeader nch bits rate bpf ++
        encodeSamples bits ((flattenVal val).map clampI16) := fun bpf =>
    writeAt_of_length_eq _ _ _ (writerHeader_length _ _ _ _).symm
  simp [setitemSlice, setitemCore, setitemTail, writerMk, shapeOf_clampVal,
    hshape, hto, flattenVal_clampVal, hw, mul_ite]

theorem drop56_header_append (nch bits rate bpf : Nat) (tail : List Nat) :
    (writerHeader nch bits rate bpf ++ tail).drop 56 = tail := by
  rw [← writerHeader_length nch bits rate bpf, List.drop_left]

/-- C4: For every block of signed 16-bit samples (mono or stereo) written
through a writer configured with `bits_per_samp = 16`, decoding the bytes
the writer produced (the file contents past `datapos`) with the reader's
16-bit decoder yields the identical sample block: the 16-bit
encode-then-decode round trip is exact for all int16 inputs. -/
theorem c4_roundtrip16 (rate : Nat) (l : List Int) (p : List (Int × Int))
    (hl : ∀ v ∈ flattenVal (.flat l), -32768 ≤ v ∧ v ≤ 32767)
    (hp : ∀ v ∈ flattenVal (.pairs p), -32768 ≤ v ∧ v ≤ 32767) :
    ((setitemSlice (writerMk 1 16 rate) (some 0) none none (.flat l)).2 = none ∧
      arrDecode 16
        ((setitemSlice (writerMk 1 16 rate) (some 0) none none
            (.flat l)).1.fileData.drop (writerMk 1 16 rate).datapos) =
        flattenVal (.flat l)) ∧
    ((setitemSlice (writerMk 2 16 rate) (some 0) none none (.pairs p)).2 = none ∧
      arrDecode 16
        ((setitemSlice (writerMk 2 16 rate) (some 0) none none
            (.pairs p)).1.fileData.drop (writerMk 2 16 rate).datapos) =
        flattenVal (.pairs p)) := by
  have hmono := setitem_fresh_spec 1 16 rate (.flat l) (by simp [shapeOf, lenOf])
  have hst := setitem_fresh_spec 2 16 rate (.pairs p) (by simp [shapeOf, lenOf])
  have hdp1 : (writerMk 1 16 rate).datapos = 56 := rfl
  have hdp2 : (writerMk 2 16 rate).datapos = 56 := rfl
  have hclamped : ∀ (val : WVal),
      (∀ v ∈ flattenVal val, -32768 ≤ v ∧ v ≤ 32767) →
      arrDecode 16 (encodeSamples 16 ((flattenVal val).map clampI16)) =
        flattenVal val := by
    intro val hval
    simp only [arrDecode, if_neg (by decide : ¬(16 = 8)),
      dec16list_encodeSamples]
    rw [map_clampI16_eq_self _ (by
        intro v hv
        rcases List.mem_map.1 hv with ⟨u, hu, huv⟩
        subst huv
        exact clampI16_mem u),
      map_clampI16_eq_self _ hval]
  refine ⟨⟨hmono.1, ?_⟩, ⟨hst.1, ?_⟩⟩
  · rw [hdp1, hmono.2, drop56_header_append]
    exact hclamped _ hl
  · rw [hdp2, hst.2, drop56_header_append]
    exact hclamped _ hp

/-- C5: The 8-bit round trip is idempotent under repetition but lossy:
re-encoding the decoded value of any encoded sample reproduces the same
byte (for every integer input, which the encoder first clamps); decoded
values are quantized to 256-step granularity, and the round trip is not
exact (e.g. at input 100).  `enc8` is exactly the writer's
`((clip(v)+128)>>8)+128` byte rule and `dec8` the reader's `(b-128)*256`;
`encodeSamples 8` applies `enc8` pointwise. -/
theorem c5_enc8_idempotent :
    (∀ v : Int, enc8 (dec8 (enc8 v)) = enc8 v) ∧
    (∀ v : Int, encodeSamples 8 [v] = [enc8 v]) ∧
    (∀ b : Nat, (256 : Int) ∣ dec8 b) ∧
    dec8 (enc8 100) ≠ 100 :=
  ⟨fun v => enc8_dec8 _ (enc8_lt v),
   fun _ => rfl,
   fun b => ⟨(b : Int) - 128, by unfold dec8; ring⟩,
   by decide⟩

set_option maxRecDepth 100000 in
/-- C1 counterexample: a 2-channel 16-bit writer given the correctly
sized but wrongly shaped (flat) block `[1, 2]` for slice `[0:2]` rejects
the write with the shape `ValueError`, yet the cursor has moved from 0
to 2. -/
theorem c1_counterexample :
    (setitemSlice (writerMk 2 16 8000) (some 0) (some 2) none
        (.flat [1, 2])).2 =
      some (.valueError ("assigning array shape to slice of shape")) ∧
    (writerMk 2 16 8000).curindex = 0 ∧
    (setitemSlice (writerMk 2 16 8000) (some 0) (some 2) none
        (.flat [1, 2])).1.curindex = 2 := by decide

set_option maxRecDepth 100000 in
/-- C2 counterexample: on a mono writer, a first write that fails only
its shape check advances the cursor to 2, after which a write starting
at frame 2 is accepted — so the first *accepted* write of this writer's
lifetime begins at frame 2, not frame 0. -/
theorem c2_counterexample :
    ((setitemSlice (writerMk 1 16 8000) (some 0) (some 2) none
        (.pairs [(1, 2), (3, 4)])).2 =
      some (.valueError ("assigning array shape to slice of shape"))) ∧
    (writerMk 1 16 8000).curindex = 0 ∧
    ((setitemSlice (writerMk 1 16 8000) (some 0) (some 2) none
        (.pairs [(1, 2), (3, 4)])).1.curindex = 2) ∧
    ((setitemSlice
        (setitemSlice (writerMk 1 16 8000) (some 0) (some 2) none
          (.pairs [(1, 2), (3, 4)])).1
        (some 2) (some 4) none (.flat [5, 6])).2 = none) := by decide

set_option maxRecDepth 100000 in
/-- C3 counterexample: an in-sequence write on a closed writer fails with
`AttributeError` (from `None.seek`), not with
`ValueError("writer is closed")` — no such check or message exists in the
code. -/
theorem c3_counterexample :
    (setitemSlice (wclose (writerMk 1 16 8000)) (some 0) none none
        (.flat [5])).2 = some .attributeError ∧
    (setitemSlice (wclose (writerMk 1 16 8000)) (some 0) none none
        (.flat [5])).2 ≠ some (.valueError ("writer is closed")) := by decide

set_option maxRecDepth 100000 in
/-- C6 counterexample: an 8-bit mono writer closed after one frame (an
odd 1-byte payload) yields a 57-byte file: the payload is *not* followed
by a zero pad byte (the claim would force length ≥ 58). -/
theorem c6_counterexample :
    (setitemInt (writerMk 1 8 8000) 0 100).2 = none ∧
    (wclose (setitemInt (writerMk 1 8 8000) 0 100).1).fileData.length = 57 := by
  decide

/-- C1 (amended): a write that fails its index, size, or ordering check
leaves the writer completely unchanged; a failure detected *after* the
sequencing check — the channel-shape mismatch, or the `AttributeError`
of a write on a closed writer — has already advanced the cursor to the
write's `stop`. -/
theorem c1_cursor_on_failure (w : WriterState) (start : Int)
    (stop? : Option Int) (val : WVal) (e : PyErr)
    (he : (setitemCore w start stop? val).2 = some e) :
    (e ≠ .valueError ("assigning array shape to slice of shape") ∧
        e ≠ .attributeError →
      (setitemCore w start stop? val).1 = w) ∧
    ((e = .valueError ("assigning array shape to slice of shape") ∨
        e = .attributeError) →
      (setitemCore w start stop? val).1.curindex = stopVal start stop? val) := by
  cases stop? <;>
    simp only [setitemCore, setitemTail, stopVal] at he ⊢ <;>
    split_ifs at he ⊢ <;>
    (try simp_all)
  all_goals subst he
  all_goals rintro (h | h) <;> simp at h

/-- C2 (amended): a write is accepted only when it begins exactly at the
current cursor (and then advances the cursor to its `stop`); a write
whose start differs from the cursor — and which passes the index and
size checks that precede the sequencing check — raises the ordering
`ValueError`; and the cursor is monotonically non-decreasing across
every call, including failing ones.  (The claim's further consequence
that accepted writes are contiguous from frame 0 fails, because a write
that fails only its shape check also advances the cursor: see the
counterexample.) -/
theorem c2_ordering (w : WriterState) (start : Int) (stop? : Option Int)
    (val : WVal) :
    ((setitemCore w start stop? val).2 = none →
      start = w.curindex ∧
      (setitemCore w start stop? val).1.curindex = stopVal start stop? val) ∧
    (¬start < 0 →
      (∀ st, stop? = some st → ¬st < start ∧ (lenOf val : Int) + start = st) →
      start ≠ w.curindex →
      (setitemCore w start stop? val).2 =
        some (.valueError ("WaveFileWriter assignments must be in seq"))) ∧
    w.curindex ≤ (setitemCore w start stop? val).1.curindex := by
  cases stop? with
  | none =>
    simp only [setitemCore, setitemTail, stopVal]
    split_ifs <;> simp_all
  | some st =>
    have hst := fun (h : ¬start < 0)
        (h2 : ∀ s, (some st : Option Int) = some s →
          ¬s < start ∧ (lenOf val : Int) + start = s) => h2 st rfl
    simp only [setitemCore, setitemTail, stopVal]
    split_ifs <;> simp_all

/-- `close()` always leaves the writer closed. -/
theorem wclose_fileOpen (w : WriterState) : (wclose w).fileOpen = false := by
  by_cases h : w.fileOpen <;> simp [wclose, h]

/-- On a closed writer every `__setitem__` call fails, and no bytes are
written. -/
theorem setitemCore_closed (w : WriterState) (hw : w.fileOpen = false)
    (start : Int) (stop? : Option Int) (val : WVal) :
    (setitemCore w start stop? val).2 ≠ none ∧
    (setitemCore w start stop? val).1.fileData = w.fileData := by
  cases stop? <;>
    simp only [setitemCore, setitemTail] <;>
    split_ifs <;> simp_all

/-- C3 (amended): `close()` is idempotent, and after `close()` every
write call fails — but a write that passes the validation checks fails
with `AttributeError` when the code touches the dropped file handle
(`self.f.seek` with `self.f = None`), not with
`ValueError("writer is closed")`, which appears nowhere in the code; no
bytes are ever written after close. -/
theorem c3_close_behavior (w : WriterState) (start : Int)
    (stop? : Option Int) (val : WVal) :
    wclose (wclose w) = wclose w ∧
    (setitemCore (wclose w) start stop? val).2 ≠ none ∧
    (setitemCore (wclose w) start stop? val).1.fileData =
      (wclose w).fileData := by
  refine ⟨?_, setitemCore_closed _ (wclose_fileOpen w) _ _ _⟩
  have h := wclose_fileOpen w
  cases hw : (wclose w) with
  | mk a b c d e f g fd =>
    rw [hw] at h
    simp only at h
    subst h
    simp [wclose]

theorem drop_append_ge (A B : List Nat) (q : Nat) (h : A.length ≤ q) :
    (A ++ B).drop q = B.drop (q - A.length) := by
  have h2 := @List.drop_append Nat A B (q - A.length)
  rw [show A.length + (q - A.length) = q from by omega] at h2
  exact h2

theorem writeAt_length (f : List Nat) (pos : Nat) (d : List Nat) :
    (writeAt f pos d).length = max f.length (pos + d.length) := by
  simp [writeAt]
  omega

/-- Reading back a span that lies wholly inside a just-written region. -/
theorem bytesAt_writeAt (f : List Nat) (pos : Nat) (d : List Nat) (q k : Nat)
    (h1 : pos ≤ f.length) (h2 : pos ≤ q) (h3 : q + k ≤ pos + d.length) :
    bytesAt (writeAt f pos d) q k = (d.drop (q - pos)).take k := by
  have hrep : pos - f.length = 0 := by omega
  have htake : (f.take pos).length = pos := by
    simp [List.length_take]
    omega
  unfold bytesAt writeAt
  rw [hrep, List.replicate_zero, List.append_nil, List.append_assoc,
    drop_append_ge _ _ _ (by rw [htake]; exact h2), htake,
    List.drop_append_of_le_length (by omega : q - pos ≤ d.length),
    List.take_append_of_le_length (by rw [List.length_drop]; omega)]

theorem le32_length (n : Nat) : (le32 n).length = 4 := rfl

/-- C6 (amended): closing a writer whose file holds exactly the 56-byte
header plus the written payload does not extend the file — in particular
an odd data payload is *not* followed by a zero pad byte — while the
`data` chunk's declared length field (bytes 52..55) is patched to the
unpadded payload length. -/
theorem c6_no_padding (w : WriterState) (hopen : w.fileOpen = true)
    (hdp : w.datapos = 56)
    (hlen : w.fileData.length = 56 + w.bytes_per_frame * w.curindex.toNat) :
    (wclose w).fileData.length = 56 + w.bytes_per_frame * w.curindex.toNat ∧
    bytesAt (wclose w).fileData 52 4 =
      le32 (w.bytes_per_frame * w.curindex.toNat) := by
  simp only [wclose, hopen, if_true, hdp]
  constructor
  · rw [writeAt_length, writeAt_length, le32_length]
    simp only [List.length_append, le32_length]
    rw [show (ascii ("data")).length = 4 from rfl]
    omega
  · rw [bytesAt_writeAt _ _ _ _ _
      (by rw [writeAt_length, le32_length]; omega)
      (by omega)
      (by simp [List.length_append, le32_length, ascii])]
    rfl

/-- C7: for every reader and integer index, a negative index is adjusted
by adding `sample_count`; the access succeeds exactly when the adjusted
index lies in `[0, sample_count)` and raises `IndexError` otherwise; in
particular `get(-1) = get(N-1)`, and `get(N)` and `get(-N-1)` both raise
`IndexError`. -/
theorem c7_get_indexing (r : ReaderState) (i : Int)
    (hn : 1 ≤ r.sample_count) :
    ((∃ x, wgetScalar r i = .ok x) ↔
      0 ≤ adjIdx i r.sample_count ∧
        adjIdx i r.sample_count < (r.sample_count : Int)) ∧
    wgetScalar r (-1) = wgetScalar r ((r.sample_count : Int) - 1) ∧
    wgetScalar r ((r.sample_count : Int)) = .error (.indexError ("")) ∧
    wgetScalar r (-(r.sample_count : Int) - 1) =
      .error (.indexError ("")) := by
  refine ⟨?_, ?_, ?_, ?_⟩
  · unfold wgetScalar
    split_ifs with h
    · exact ⟨fun _ => h, fun _ => ⟨_, rfl⟩⟩
    · constructor
      · rintro ⟨x, hx⟩
        cases hx
      · intro hc
        exact absurd hc h
  · have ha : adjIdx (-1) r.sample_count = (r.sample_count : Int) - 1 := by
      unfold adjIdx
      rw [if_pos (by omega : (-1 : Int) < 0)]
      omega
    have hb : adjIdx ((r.sample_count : Int) - 1) r.sample_count =
        (r.sample_count : Int) - 1 := by
      unfold adjIdx
      rw [if_neg (by omega : ¬((r.sample_count : Int) - 1 < 0))]
    unfold wgetScalar
    rw [ha, hb]
  · have hc : adjIdx ((r.sample_count : Int)) r.sample_count =
        (r.sample_count : Int) := by
      unfold adjIdx
      rw [if_neg (by omega)]
    unfold wgetScalar
    rw [hc, if_neg (by omega)]
  · have hd : adjIdx (-(r.sample_count : Int) - 1) r.sample_count = -1 := by
      unfold adjIdx
      rw [if_pos (by omega)]
      omega
    unfold wgetScalar
    rw [hd, if_neg (by omega)]

theorem dec16list_drop (m : Nat) :
    ∀ s : List Nat, dec16list (s.drop (2 * m)) = (dec16list s).drop m := by
  induction m with
  | zero =>
    intro s
    simp
  | succ k ih =>
    intro s
    match s with
    | [] => simp [dec16list]
    | [b] => simp [dec16list]
    | b0 :: b1 :: rest =>
      rw [show 2 * (k + 1) = 2 * k + 1 + 1 from by ring, List.drop_succ_cons,
        List.drop_succ_cons, ih rest]
      simp [dec16list]

theorem arrDecode_nil (bits : Nat) : arrDecode bits [] = [] := by
  unfold arrDecode
  split_ifs <;> rfl

/-- Reading a sub-span of the data region decodes to the corresponding
sub-list of samples (byte offsets and sample offsets related by the
frame layout). -/
theorem arrDecode_drop_span (bits nch bpf : Nat) (file : List Nat)
    (p m k : Nat)
    (hd : (bits = 8 ∧ bpf = nch) ∨ (bits = 16 ∧ bpf = 2 * nch)) :
    arrDecode bits (bytesAt file (p + bpf * m) (bpf * k)) =
      (arrDecode bits (bytesAt file p (bpf * m + bpf * k))).drop (m * nch) := by
  have hspan : (bytesAt file p (bpf * m + bpf * k)).drop (bpf * m) =
      bytesAt file (p + bpf * m) (bpf * k) := by
    unfold bytesAt
    rw [List.drop_take, List.drop_drop]
    congr 1
    omega
  rcases hd with ⟨hb, he⟩ | ⟨hb, he⟩
  · subst hb
    subst he
    rw [← hspan]
    unfold arrDecode
    rw [if_pos rfl, if_pos rfl, ← List.map_drop]
    congr 2
    ring
  · subst hb
    subst he
    rw [← hspan]
    unfold arrDecode
    rw [if_neg (by decide), if_neg (by decide),
      show 2 * nch * m = 2 * (nch * m) from by ring, dec16list_drop,
      show nch * m = m * nch from by ring]

/-- The decoder/frame-layout discipline every reader produced by
`wavInit` satisfies: 8-bit frames are one byte per channel, 16-bit
frames two bytes per channel. -/
def decoderOk (r : ReaderState) : Prop :=
  (r.bits_per_samp = 8 ∧ r.bytes_per_frame = r.nchans) ∨
  (r.bits_per_samp = 16 ∧ r.bytes_per_frame = 2 * r.nchans)

instance (r : ReaderState) : Decidable (decoderOk r) := by
  unfold decoderOk
  infer_instance

/-- C8 (amended): range access clamps Python-slice-style; for
`1 ≤ k ≤ N`, `get_range(-k, None)` reads exactly the last `k` frames'
bytes and returns exactly the last `k` frames (the tail of the full
decoded block); a range that clamps to `start ≥ stop` returns an empty
block with no error and performs no read I/O; and the full range reads
the whole data region.  (At `k = 0` the claim as stated fails — `-0` is
`0`, so the call returns all `N` frames, see the counterexample — hence
the `1 ≤ k` bound.) -/
theorem c8_range (r : ReaderState) (k : Nat) (a b : Option Int)
    (hd : decoderOk r) (hk1 : 1 ≤ k) (hk2 : k ≤ r.sample_count)
    (hab : (sliceIndices a b r.sample_count).2 ≤
      (sliceIndices a b r.sample_count).1) :
    wgetRange r (some (-(k : Int))) none none =
      .ok (some (r.datapos + r.bytes_per_frame * (r.sample_count - k),
          k * r.bytes_per_frame),
        (arrDecode r.bits_per_samp
            (bytesAt r.file r.datapos
              (r.bytes_per_frame * r.sample_count))).drop
          ((r.sample_count - k) * r.nchans)) ∧
    wgetRange r a b none = .ok (none, []) ∧
    wgetRange r none none none =
      .ok (some (r.datapos + r.bytes_per_frame * 0,
          r.sample_count * r.bytes_per_frame),
        arrDecode r.bits_per_samp
          (bytesAt r.file (r.datapos + r.bytes_per_frame * 0)
            (r.sample_count * r.bytes_per_frame))) := by
  refine ⟨?_, ?_, ?_⟩
  · have hst : sliceIndices (some (-(k : Int))) none r.sample_count =
        (r.sample_count - k, r.sample_count) := by
      simp only [sliceIndices]
      rw [if_pos (by omega : -(k : Int) < 0)]
      congr 1
      omega
    simp only [wgetRange, hst]
    rw [show r.sample_count - (r.sample_count - k) = k from by omega]
    unfold rangeRead
    rw [if_neg (by omega : ¬k = 0)]
    have hdec := arrDecode_drop_span r.bits_per_samp r.nchans
      r.bytes_per_frame r.file r.datapos (r.sample_count - k) k hd
    rw [show k * r.bytes_per_frame = r.bytes_per_frame * k from by ring,
      hdec, ← Nat.mul_add,
      show r.sample_count - k + k = r.sample_count from by omega]
  · simp only [wgetRange]
    rw [show (sliceIndices a b r.sample_count).2 -
        (sliceIndices a b r.sample_count).1 = 0 from by omega]
    unfold rangeRead
    rw [if_pos rfl, arrDecode_nil]
  · have hst : sliceIndices none none r.sample_count =
        (0, r.sample_count) := rfl
    simp only [wgetRange, hst]
    rw [show r.sample_count - 0 = r.sample_count from by omega]
    unfold rangeRead
    rw [if_neg (by omega : ¬r.sample_count = 0)]

set_option maxRecDepth 100000 in
/-- C8 counterexample: on the 4-frame `sampleReader`, `k = 0` satisfies
`k ≤ N`, but `get_range(-0, None)` is `get_range(0, None)` — it returns
all 4 frames and reads 8 bytes of payload, not the empty "last 0 frames"
block with no I/O. -/
theorem c8_counterexample :
    (0 : Nat) ≤ sampleReader.sample_count ∧
    wgetRange sampleReader (some (-(0 : Int))) none none ≠ .ok (none, []) ∧
    wgetRange sampleReader (some (-(0 : Int))) none none =
      .ok (some (56, 8), [100, 200, 300, 400]) := by decide

/-- The scan loop only ever indexes chunks whose 8-byte header begins
strictly below the declared RIFF length: every recorded entry has
`pos = header + 8` with `header < length`. -/
theorem scanLoop_bound (fuel : Nat) :
    ∀ (file : List Nat) (length pos nextpos : Nat)
      (acc out : List ChunkEntry),
      scanLoop file length pos nextpos acc fuel = .ok out →
      (∀ c ∈ acc, 8 ≤ c.pos ∧ c.pos - 8 < length) →
      ∀ c ∈ out, 8 ≤ c.pos ∧ c.pos - 8 < length := by
  induction fuel with
  | zero =>
    intro file length pos nextpos acc out h hacc
    cases h
  | succ n ih =>
    intro file length pos nextpos acc out h hacc
    rw [scanLoop] at h
    by_cases h1 : nextpos < length
    · rw [if_pos h1] at h
      by_cases h2 : nextpos < pos
      · rw [if_pos h2] at h
        cases h
      · rw [if_neg h2] at h
        by_cases h3 : file.length < nextpos + 8
        · rw [if_pos h3] at h
          cases h
        · rw [if_neg h3] at h
          refine ih _ _ _ _ _ _ h ?_
          intro c hc
          rcases List.mem_append.1 hc with hmem | hmem
          · exact hacc c hmem
          · rcases List.mem_singleton.1 hmem with rfl
            refine ⟨?_, ?_⟩
            · show 8 ≤ nextpos + 8
              omega
            · show nextpos + 8 - 8 < length
              omega
    · rw [if_neg h1] at h
      cases h
      exact hacc

/-- C9: the chunk scanner compares absolute positions against the
declared RIFF length (which excludes the 8-byte preamble), so no chunk
whose header starts at or past `declared_length` is ever indexed; in
particular the file a writer emits after zero writes (declared length
48, `data` header at absolute offset 48, 56 bytes long) is rejected by
the reader with the chunk-not-found error instead of producing a
0-frame reader. -/
theorem c9_scanner_bound :
    (∀ (file : List Nat) (len : Nat) (chunks : List ChunkEntry),
      riffScanWAVE file = .ok (len, chunks) →
      ∀ c ∈ chunks, 8 ≤ c.pos ∧ c.pos - 8 < len) ∧
    rd32 emptyWriterFile 4 = 48 ∧
    emptyWriterFile.length = 56 ∧
    wavInit emptyWriterFile =
      .error (.valueError ("chunk type not found")) := by
  refine ⟨?_, by decide, by decide, by decide⟩
  intro file len chunks h
  unfold riffScanWAVE at h
  by_cases h1 : file.length < 12
  · rw [if_pos h1] at h
    cases h
  · rw [if_neg h1] at h
    by_cases h2 : bytesAt file 8 4 ≠ ascii ("WAVE")
    · rw [if_pos h2] at h
      cases h
    · rw [if_neg h2] at h
      by_cases h3 : bytesAt file 0 4 ≠ ascii ("RIFF")
      · rw [if_pos h3] at h
        cases h
      · rw [if_neg h3] at h
        rcases hscan : scanLoop file (rd32 file 4) 12 12 [] (rd32 file 4 + 1)
          with e | cs
        · rw [hscan] at h
          cases h
        · rw [hscan] at h
          cases h
          exact scanLoop_bound _ _ _ _ _ _ _ hscan (by simp)

/-- C10: the reader's format validation never inspects the sample rate;
for any stream whose RIFF scan and chunk lookups succeed and whose fmt
payload passes the compression/channel/bit-depth checks while declaring
`sample_rate = 0`, construction fails with the division-by-zero error
(raised while computing `duration`), not with the unsupported-format
error, and no reader is produced. -/
theorem c10_zero_rate (file : List Nat) (flen : Nat)
    (chunks : List ChunkEntry) (fmtc datac : ChunkEntry)
    (hscan : riffScanWAVE file = .ok (flen, chunks))
    (hfmt : find_chunk_data chunks (ascii ("fmt ")) = .ok fmtc)
    (hdata : find_chunk_data chunks (ascii ("data")) = .ok datac)
    (hlen : ¬(fmtData file fmtc).length < 18)
    (hcomp : rd16 (fmtData file fmtc) 0 = 1)
    (hch : rd16 (fmtData file fmtc) 2 = 1 ∨ rd16 (fmtData file fmtc) 2 = 2)
    (hbits : 8 ≤ rd16 (fmtData file fmtc) 14 ∧
      rd16 (fmtData file fmtc) 14 ≤ 16)
    (hrate : rd32 (fmtData file fmtc) 4 = 0) :
    wavInit file = .error .zeroDivisionError := by
  simp only [wavInit, hscan, hfmt, hdata]
  rw [if_neg hlen,
    if_neg (not_not_intro ⟨hcomp, hch, hbits.1, hbits.2⟩),
    if_pos hrate]

/-! ### Witnesses -/

set_option maxRecDepth 100000 in
theorem c1_cursor_on_failure_witness :
    ((setitemCore (writerMk 1 16 8000) 5 none (WVal.flat [7])).2 =
      some (.valueError ("WaveFileWriter assignments must be in seq"))) ∧
    (((.valueError ("WaveFileWriter assignments must be in seq") : PyErr) ≠
          .valueError ("assigning array shape to slice of shape") ∧
        (.valueError ("WaveFileWriter assignments must be in seq") : PyErr) ≠
          .attributeError →
      (setitemCore (writerMk 1 16 8000) 5 none (WVal.flat [7])).1 =
        writerMk 1 16 8000) ∧
      ((.valueError ("WaveFileWriter assignments must be in seq") : PyErr) =
          .valueError ("assigning array shape to slice of shape") ∨
        (.valueError ("WaveFileWriter assignments must be in seq") : PyErr) =
          .attributeError →
      (setitemCore (writerMk 1 16 8000) 5 none (WVal.flat [7])).1.curindex =
        stopVal 5 none (WVal.flat [7]))) :=
  ⟨by decide, c1_cursor_on_failure _ _ _ _ _ (by decide)⟩

set_option maxRecDepth 100000 in
theorem c2_ordering_witness :
    ((setitemCore (writerMk 1 16 8000) 0 none (WVal.flat [7])).2 = none →
      (0 : Int) = (writerMk 1 16 8000).curindex ∧
      (setitemCore (writerMk 1 16 8000) 0 none (WVal.flat [7])).1.curindex =
        stopVal 0 none (WVal.flat [7])) ∧
    (¬(0 : Int) < 0 →
      (∀ st, (none : Option Int) = some st →
        ¬st < 0 ∧ (lenOf (WVal.flat [7]) : Int) + 0 = st) →
      (0 : Int) ≠ (writerMk 1 16 8000).curindex →
      (setitemCore (writerMk 1 16 8000) 0 none (WVal.flat [7])).2 =
        some (.valueError ("WaveFileWriter assignments must be in seq"))) ∧
    (writerMk 1 16 8000).curindex ≤
      (setitemCore (writerMk 1 16 8000) 0 none (WVal.flat [7])).1.curindex :=
  c2_ordering _ _ _ _

set_option maxRecDepth 100000 in
theorem c3_close_behavior_witness :
    wclose (wclose (writerMk 1 16 8000)) = wclose (writerMk 1 16 8000) ∧
    (setitemCore (wclose (writerMk 1 16 8000)) 0 none
        (WVal.flat [7])).2 ≠ none ∧
    (setitemCore (wclose (writerMk 1 16 8000)) 0 none
        (WVal.flat [7])).1.fileData =
      (wclose (writerMk 1 16 8000)).fileData :=
  c3_close_behavior _ _ _ _

set_option maxRecDepth 100000 in
theorem c4_roundtrip16_witness :
    (∀ v ∈ flattenVal (WVal.flat [100, -32768, 32767, 0]),
      -32768 ≤ v ∧ v ≤ 32767) ∧
    (∀ v ∈ flattenVal (WVal.pairs [(1000, -1000)]),
      -32768 ≤ v ∧ v ≤ 32767) ∧
    (((setitemSlice (writerMk 1 16 8000) (some 0) none none
        (WVal.flat [100, -32768, 32767, 0])).2 = none ∧
      arrDecode 16
        ((setitemSlice (writerMk 1 16 8000) (some 0) none none
            (WVal.flat [100, -32768, 32767, 0])).1.fileData.drop
          (writerMk 1 16 8000).datapos) =
        flattenVal (WVal.flat [100, -32768, 32767, 0])) ∧
     ((setitemSlice (writerMk 2 16 8000) (some 0) none none
        (WVal.pairs [(1000, -1000)])).2 = none ∧
      arrDecode 16
        ((setitemSlice (writerMk 2 16 8000) (some 0) none none
            (WVal.pairs [(1000, -1000)])).1.fileData.drop
          (writerMk 2 16 8000).datapos) =
        flattenVal (WVal.pairs [(1000, -1000)]))) :=
  ⟨by decide, by decide, c4_roundtrip16 8000 _ _ (by decide) (by decide)⟩

set_option maxRecDepth 100000 in
theorem c6_no_padding_witness :
    ((setitemInt (writerMk 1 8 8000) 0 100).1.fileOpen = true) ∧
    ((setitemInt (writerMk 1 8 8000) 0 100).1.datapos = 56) ∧
    ((setitemInt (writerMk 1 8 8000) 0 100).1.fileData.length =
      56 + (setitemInt (writerMk 1 8 8000) 0 100).1.bytes_per_frame *
        (setitemInt (writerMk 1 8 8000) 0 100).1.curindex.toNat) ∧
    ((wclose (setitemInt (writerMk 1 8 8000) 0 100).1).fileData.length =
      56 + (setitemInt (writerMk 1 8 8000) 0 100).1.bytes_per_frame *
        (setitemInt (writerMk 1 8 8000) 0 100).1.curindex.toNat ∧
     bytesAt (wclose (setitemInt (writerMk 1 8 8000) 0 100).1).fileData 52 4 =
      le32 ((setitemInt (writerMk 1 8 8000) 0 100).1.bytes_per_frame *
        (setitemInt (writerMk 1 8 8000) 0 100).1.curindex.toNat)) :=
  ⟨by decide, by decide, by decide,
    c6_no_padding _ (by decide) (by decide) (by decide)⟩

set_option maxRecDepth 100000 in
theorem c7_get_indexing_witness :
    1 ≤ sampleReader.sample_count ∧
    (((∃ x, wgetScalar sampleReader 2 = .ok x) ↔
        0 ≤ adjIdx 2 sampleReader.sample_count ∧
          adjIdx 2 sampleReader.sample_count <
            (sampleReader.sample_count : Int)) ∧
      wgetScalar sampleReader (-1) =
        wgetScalar sampleReader ((sampleReader.sample_count : Int) - 1) ∧
      wgetScalar sampleReader ((sampleReader.sample_count : Int)) =
        .error (.indexError ("")) ∧
      wgetScalar sampleReader (-(sampleReader.sample_count : Int) - 1) =
        .error (.indexError (""))) :=
  ⟨by decide, c7_get_indexing sampleReader 2 (by decide)⟩

set_option maxRecDepth 100000 in
theorem c8_range_witness :
    (decoderOk sampleReader ∧ 1 ≤ 2 ∧ 2 ≤ sampleReader.sample_count ∧
      (sliceIndices (some 3) (some 1) sampleReader.sample_count).2 ≤
        (sliceIndices (some 3) (some 1) sampleReader.sample_count).1) ∧
    (wgetRange sampleReader (some (-(2 : Int))) none none =
      .ok (some (sampleReader.datapos +
            sampleReader.bytes_per_frame * (sampleReader.sample_count - 2),
          2 * sampleReader.bytes_per_frame),
        (arrDecode sampleReader.bits_per_samp
            (bytesAt sampleReader.file sampleReader.datapos
              (sampleReader.bytes_per_frame *
                sampleReader.sample_count))).drop
          ((sampleReader.sample_count - 2) * sampleReader.nchans)) ∧
      wgetRange sampleReader (some 3) (some 1) none = .ok (none, []) ∧
      wgetRange sampleReader none none none =
        .ok (some (sampleReader.datapos +
              sampleReader.bytes_per_frame * 0,
            sampleReader.sample_count * sampleReader.bytes_per_frame),
          arrDecode sampleReader.bits_per_samp
            (bytesAt sampleReader.file
              (sampleReader.datapos + sampleReader.bytes_per_frame * 0)
              (sampleReader.sample_count * sampleReader.bytes_per_frame)))) :=
  ⟨⟨by decide, by decide, by decide, by decide⟩,
    c8_range sampleReader 2 (some 3) (some 1) (by decide) (by decide)
      (by decide) (by decide)⟩

set_option maxRecDepth 100000 in
theorem c9_scanner_bound_witness :
    8 ≤ (⟨ascii ("data"), 56, 8⟩ : ChunkEntry).pos ∧
    (⟨ascii ("data"), 56, 8⟩ : ChunkEntry).pos - 8 < 56 :=
  c9_scanner_bound.1 demoFile 56
    [⟨ascii ("fmt "), 20, 16⟩, ⟨ascii ("fact"), 44, 4⟩,
      ⟨ascii ("data"), 56, 8⟩]
    (by decide) ⟨ascii ("data"), 56, 8⟩ (by decide)

set_option maxRecDepth 100000 in
theorem c10_zero_rate_witness :
    wavInit zeroRateFile = .error .zeroDivisionError :=
  c10_zero_rate zeroRateFile 38
    [⟨ascii ("fmt "), 20, 16⟩, ⟨ascii ("data"), 44, 2⟩]
    ⟨ascii ("fmt "), 20, 16⟩ ⟨ascii ("data"), 44, 2⟩
    (by decide) (by decide) (by decide) (by decide) (by decide) (by decide)
    (by decide) (by decide)
